import Mathlib

/-!
Verification of the TFS MCP Server command layer (`tfs_mcp_server`).

The repository wraps the TFS command-line client `tf.exe`: each operation
builds an argument vector from structured options, spawns the executable,
and wraps stdout/stderr/exit-code in a uniform `TFSCommandResult`.

This file is a shallow embedding of that layer:
* `_execute_command` (tfs_client.py) becomes a pure function over a
  `ProcessOutcome` value describing what the operating system did
  (process launched and exited with given raw byte streams, or the spawn
  itself failed with an OS error message);
* Python `bytes.decode` with the default strict UTF-8 codec is embedded
  as `utf8Decode` / `pyDecode` (it can fail, which Python surfaces as a
  raised `UnicodeDecodeError` caught by the surrounding `except` block);
* each operation's argument construction (checkin, status, get, branch,
  history, ...) becomes a pure `List String` builder, with Python
  truthiness (`if options.x:`) translated explicitly;
* `get_workspace_info` (tfs_client.py) and the `tfs://status/{path}`
  resource handler (server.py) are embedded on top of the executor.
-/

/-- Result record of one command execution
(`TFSCommandResult` in types.py). -/
structure TFSCommandResult where
  success : Bool
  output : String
  error : Option String
  return_code : Int
  command : String
deriving Repr, DecidableEq

/-- What the operating system did when asked to spawn the child process:
either the process was created and ran to completion with a raw exit code
and raw stdout/stderr byte streams, or process creation itself failed
(missing executable, permission denied, ...) with an OS error message.
This is the environment input of `_execute_command`. -/
inductive ProcessOutcome where
  | launched (returncode : Int) (stdout_bytes stderr_bytes : List Nat)
  | launchFailure (msg : String)
deriving Repr, DecidableEq

/-- Is `b` a UTF-8 continuation byte (`0x80 ≤ b < 0xC0`)? -/
def isContByte (b : Nat) : Bool :=
  0x80 ≤ b && b < 0xC0

/-- Strict UTF-8 decoding of a byte sequence, mirroring Python's
`bytes.decode("utf-8")` acceptance (RFC 3629: no overlong forms, no
surrogate code points, nothing above U+10FFFF).  Returns `none` exactly
where Python raises `UnicodeDecodeError`. -/
def utf8Decode : List Nat → Option (List Char)
  | [] => some []
  | b :: l =>
    if b < 0x80 then
      match utf8Decode l with
      | some cs => some (Char.ofNat b :: cs)
      | none => none
    else if b < 0xC2 then
      none
    else if b < 0xE0 then
      match l with
      | b1 :: l1 =>
        if isContByte b1 then
          match utf8Decode l1 with
          | some cs => some (Char.ofNat ((b - 0xC0) * 0x40 + (b1 - 0x80)) :: cs)
          | none => none
        else none
      | [] => none
    else if b < 0xF0 then
      match l with
      | b1 :: b2 :: l2 =>
        if isContByte b1 && isContByte b2
            && (!(b == 0xE0) || 0xA0 ≤ b1)
            && (!(b == 0xED) || b1 < 0xA0) then
          match utf8Decode l2 with
          | some cs =>
            some (Char.ofNat ((b - 0xE0) * 0x1000 + (b1 - 0x80) * 0x40 + (b2 - 0x80)) :: cs)
          | none => none
        else none
      | _ => none
    else if b < 0xF5 then
      match l with
      | b1 :: b2 :: b3 :: l3 =>
        if isContByte b1 && isContByte b2 && isContByte b3
            && (!(b == 0xF0) || 0x90 ≤ b1)
            && (!(b == 0xF4) || b1 < 0x90) then
          match utf8Decode l3 with
          | some cs =>
            some (Char.ofNat ((b - 0xF0) * 0x40000 + (b1 - 0x80) * 0x1000
              + (b2 - 0x80) * 0x40 + (b3 - 0x80)) :: cs)
          | none => none
        else none
      | _ => none
    else none

/-- Embedding of the Python expression
`xs.decode("utf-8") if xs else ""` (tfs_client.py lines 67-68): empty
byte strings are falsy so they skip decoding entirely; non-empty ones go
through the strict UTF-8 codec, which raises (here: `Except.error`) on
invalid input.  The error payload stands for `str(UnicodeDecodeError)`. -/
def pyDecode (bs : List Nat) : Except String String :=
  if bs.isEmpty then
    Except.ok ""
  else
    match utf8Decode bs with
    | some cs => Except.ok (String.mk cs)
    | none => Except.error "UnicodeDecodeError: utf-8 codec cannot decode byte"

/-- Embedding of `TFSClient._execute_command` (tfs_client.py lines 41-85).
`exe` is `self.tf_exe_path`, `command` the argument list.  The `try`
block decodes stdout then stderr and builds the result from the exit
code; any exception — a spawn failure, or a `UnicodeDecodeError` from
either `.decode("utf-8")` call — is caught by `except Exception as e`
and becomes the `return_code = -1` record with `error = str(e)`.
`return_code` is `process.returncode or 0` in the source, hence the
`if rc = 0 then 0 else rc` form. -/
def _execute_command (exe : String) (command : List String)
    (outcome : ProcessOutcome) : TFSCommandResult :=
  let cmd := exe :: command
  match outcome with
  | ProcessOutcome.launchFailure msg =>
    { success := false
      output := ""
      error := some msg
      return_code := -1
      command := String.intercalate " " cmd }
  | ProcessOutcome.launched rc stdout_bytes stderr_bytes =>
    match pyDecode stdout_bytes with
    | Except.error e =>
      { success := false
        output := ""
        error := some e
        return_code := -1
        command := String.intercalate " " cmd }
    | Except.ok stdout =>
      match pyDecode stderr_bytes with
      | Except.error e =>
        { success := false
          output := ""
          error := some e
          return_code := -1
          command := String.intercalate " " cmd }
      | Except.ok stderr =>
        { success := rc == 0
          output := stdout
          error := if rc ≠ 0 then some stderr else none
          return_code := if rc = 0 then 0 else rc
          command := String.intercalate " " cmd }

/-- Checkin options (`TFSCheckinOptions` in types.py): paths, mandatory
comment, recursive flag, optional associate/resolve work-item-id lists,
optional override reason. -/
structure TFSCheckinOptions where
  paths : List String
  comment : String
  recursive : Bool
  associate : Option (List Int)
  resolve : Option (List Int)
  override : Option String
deriving Repr, DecidableEq

/-- Branch request (`TFSBranchInfo` in types.py). -/
structure TFSBranchInfo where
  source_path : String
  target_path : String
  version : Option String
deriving Repr, DecidableEq

/-- History options (`TFSHistoryOptions` in types.py). -/
structure TFSHistoryOptions where
  path : String
  recursive : Bool
  stopafter : Option Int
  version : Option String
  user : Option String
deriving Repr, DecidableEq

/-- Workspace record (`TFSWorkspaceInfo` in types.py). -/
structure TFSWorkspaceInfo where
  name : String
  owner : String
  computer : String
  comment : Option String
  collection : String
  location : String
deriving Repr, DecidableEq

/-- Argument vector built by `TFSClient.checkin_files`
(tfs_client.py lines 140-169).  Each Python `if options.x:` guard is
Python truthiness: `None`, the empty list and the empty string are all
falsy, so the corresponding flag tokens are skipped. -/
def checkin_files_command (options : TFSCheckinOptions) : List String :=
  let command := ["checkin"] ++ ["/comment:" ++ options.comment]
  let command := if options.recursive then command ++ ["/recursive"] else command
  let command :=
    match options.associate with
    | some ids =>
      if ids ≠ [] then command ++ ids.map (fun w => "/associate:" ++ toString w)
      else command
    | none => command
  let command :=
    match options.resolve with
    | some ids =>
      if ids ≠ [] then command ++ ids.map (fun w => "/resolve:" ++ toString w)
      else command
    | none => command
  let command :=
    match options.override with
    | some ov => if ov ≠ "" then command ++ ["/override:" ++ ov] else command
    | none => command
  command ++ options.paths

/-- Argument vector built by `TFSClient.get_status`
(tfs_client.py lines 241-265): base token, optional `/recursive`, then
the paths, or a single `.` when `paths` is `None` or empty (falsy). -/
def get_status_command (paths : Option (List String)) (recursive : Bool) :
    List String :=
  let command := ["status"]
  let command := if recursive then command ++ ["/recursive"] else command
  match paths with
  | some ps => if ps ≠ [] then command ++ ps else command ++ ["."]
  | none => command ++ ["."]

/-- Argument vector built by `TFSClient.get_latest`
(tfs_client.py lines 267-296). -/
def get_latest_command (paths : Option (List String)) (recursive force : Bool) :
    List String :=
  let command := ["get"]
  let command := if recursive then command ++ ["/recursive"] else command
  let command := if force then command ++ ["/force"] else command
  match paths with
  | some ps => if ps ≠ [] then command ++ ps else command ++ ["."]
  | none => command ++ ["."]

/-- Argument vector built by `TFSClient.create_branch`
(tfs_client.py lines 298-312): the source and target paths are placed
right after the base token, and the `/version:` flag — when the version
option is truthy — is appended after them. -/
def create_branch_command (branch_info : TFSBranchInfo) : List String :=
  let command := ["branch", branch_info.source_path, branch_info.target_path]
  match branch_info.version with
  | some v => if v ≠ "" then command ++ ["/version:" ++ v] else command
  | none => command

/-- Argument vector built by `TFSClient.get_history`
(tfs_client.py lines 339-362).  Note `if options.stopafter:` — the
integer `0` is falsy in Python, so `stopafter=0` emits no flag. -/
def get_history_command (options : TFSHistoryOptions) : List String :=
  let command := ["history", options.path]
  let command := if options.recursive then command ++ ["/recursive"] else command
  let command :=
    match options.stopafter with
    | some n => if n ≠ 0 then command ++ ["/stopafter:" ++ toString n] else command
    | none => command
  let command :=
    match options.version with
    | some v => if v ≠ "" then command ++ ["/version:" ++ v] else command
    | none => command
  match options.user with
  | some u => if u ≠ "" then command ++ ["/user:" ++ u] else command
  | none => command

/-- Python substring test `pat in s`. -/
def strContainsSub (s pat : String) : Bool :=
  s.toList.tails.any (fun t => pat.toList.isPrefixOf t)

/-- Python `str` applied to an `Optional[str]` value, as an f-string
interpolation does: `None` prints as the literal text `None`. -/
def pyStr : Option String → String
  | some s => s
  | none => "None"

/-- Python `line.split(":")[-1].strip()`: split on `:`, take the last
piece (a Python split is never empty), strip surrounding whitespace. -/
def lastColonField (line : String) : String :=
  ((line.splitOn ":").getLastD "").trim

/-- Embedding of `TFSClient.get_workspace_info`
(tfs_client.py lines 87-114).  It runs `workfold /collection` through
the executor; if the result is unsuccessful it raises
(`Except.error`) with the message
`"Failed to get workspace info: {result.error}"`.  Otherwise it scans
the newline-split, stripped output for the first line containing
`Workspace:` and the first containing `Owner:`, takes the text after
the last `:` of each (defaulting to `"Unknown"` when no such line
exists — `next(..., "")` yields the falsy empty string), reads the
computer name from the `COMPUTERNAME` environment variable
(`computername` here), and hardcodes the remaining fields. -/
def get_workspace_info (exe : String) (outcome : ProcessOutcome)
    (computername : Option String) : Except String TFSWorkspaceInfo :=
  let result := _execute_command exe ["workfold", "/collection"] outcome
  if !result.success then
    Except.error ("Failed to get workspace info: " ++ pyStr result.error)
  else
    let lines := result.output.trim.splitOn "\n"
    let workspace_line := (lines.find? (fun line => strContainsSub line "Workspace:")).getD ""
    let owner_line := (lines.find? (fun line => strContainsSub line "Owner:")).getD ""
    Except.ok
      { name := if workspace_line ≠ "" then lastColonField workspace_line else "Unknown"
        owner := if owner_line ≠ "" then lastColonField owner_line else "Unknown"
        computer := computername.getD "Unknown"
        comment := none
        collection := "Unknown"
        location := "Local" }

/-- JSON scalar values appearing in the server's response objects. -/
inductive JsonVal where
  | str (s : String)
  | bool (b : Bool)
  | null
deriving Repr, DecidableEq

/-- `error` field of a JSON response: `Optional[str]` serialised as a
JSON string or `null`. -/
def jsonOfOptStr : Option String → JsonVal
  | some s => JsonVal.str s
  | none => JsonVal.null

/-- Embedding of the `tfs://status/{path}` resource handler
`get_path_status` (server.py lines 543-563), modelled as the ordered
key/value object it serialises with `json.dumps`.  It calls
`self.tfs_client.get_status([path], recursive=False)` — which builds the
status argument vector and runs it through the executor — and returns an
object with exactly the keys `path`, `success`, `output`, `error`.
(The handler's `except` branch is unreachable in this model: the client
catches every exception inside `_execute_command` and never raises.) -/
def get_path_status (exe : String) (path : String)
    (outcome : ProcessOutcome) : List (String × JsonVal) :=
  let result := _execute_command exe (get_status_command (some [path]) false) outcome
  [("path", JsonVal.str path),
   ("success", JsonVal.bool result.success),
   ("output", JsonVal.str result.output),
   ("error", jsonOfOptStr result.error)]

/-- Unwrap an optional list the way the spec's flag-expansion rule reads
it: an absent list contributes no flag occurrences, a present list one
occurrence per element. -/
def optList {α : Type} : Option (List α) → List α
  | some l => l
  | none => []

/-- Helper: a Python `if ids:` guard around per-id flag expansion is
redundant — appending the expansion of an empty list is a no-op.
Stated in the `if ids = []` orientation that `simp` normalises to. -/
theorem guard_map_eq (c : List String) (f : Int → String) (ids : List Int) :
    (if ids = [] then c else c ++ ids.map f) = c ++ ids.map f := by
  cases ids <;> simp

/-- C1: for every invocation of the executor, whatever the outcome
(process completed with any exit code, or launch failure), the returned
`TFSCommandResult` satisfies `success == (return_code == 0)`. -/
theorem execute_success_iff_return_code_zero (exe : String) (args : List String)
    (o : ProcessOutcome) :
    (_execute_command exe args o).success = true
      ↔ (_execute_command exe args o).return_code = 0 := by
  cases o with
  | launchFailure msg => simp [_execute_command]
  | launched rc so se =>
    rcases hso : pyDecode so with e | s
    · simp [_execute_command, hso]
    · rcases hse : pyDecode se with e | t
      · simp [_execute_command, hso, hse]
      · simp only [_execute_command, hso, hse]
        by_cases h : rc = 0 <;> simp [h]

/-- C2 counterexample: a process that was launched and exited with code 1
while writing nothing to stderr yields `error = some ""` — the error
field equals the captured stderr text but is NOT non-empty, refuting the
claim that `error` is always non-empty on a non-zero exit. -/
theorem nonzero_exit_empty_stderr_counterexample :
    (_execute_command "tf" ["status", "."] (ProcessOutcome.launched 1 [] [])).success = false
    ∧ (_execute_command "tf" ["status", "."] (ProcessOutcome.launched 1 [] [])).return_code = 1
    ∧ (_execute_command "tf" ["status", "."] (ProcessOutcome.launched 1 [] [])).error = some "" := by
  decide

/-- C2 (amended): for every process that was launched and exited with a
non-zero code, and whose stdout/stderr bytes decode as UTF-8 to `s` and
`t`, the executor returns `success = false`, `output = s` (stdout kept,
not discarded) and `error = some t` — the captured stderr text, which
may be empty when the process wrote nothing to stderr. -/
theorem execute_nonzero_exit_reports_stderr (exe : String) (args : List String)
    (rc : Int) (so se : List Nat) (s t : String)
    (hso : pyDecode so = Except.ok s) (hse : pyDecode se = Except.ok t)
    (hrc : rc ≠ 0) :
    _execute_command exe args (ProcessOutcome.launched rc so se) =
      { success := false, output := s, error := some t, return_code := rc,
        command := String.intercalate " " (exe :: args) } := by
  simp [_execute_command, hso, hse, hrc]

/-- C2 witness: the amended theorem applied at a concrete non-zero exit
with one byte of stdout and one byte of stderr. -/
theorem execute_nonzero_exit_reports_stderr_witness :
    pyDecode [111] = Except.ok "o" ∧ pyDecode [101] = Except.ok "e"
    ∧ (1 : Int) ≠ 0
    ∧ _execute_command "tf" ["checkin"] (ProcessOutcome.launched 1 [111] [101]) =
      { success := false, output := "o", error := some "e", return_code := 1,
        command := "tf checkin" } :=
  ⟨rfl, rfl, by decide,
    (execute_nonzero_exit_reports_stderr "tf" ["checkin"] 1 [111] [101] "o" "e"
      rfl rfl (by decide)).trans (by decide)⟩

/-- C3: when the process cannot be started at all, the executor returns
`success = false`, `output = ""`, `return_code = -1`, and `error` set to
the description of the underlying OS failure. -/
theorem execute_launch_failure_fields (exe : String) (args : List String)
    (msg : String) :
    _execute_command exe args (ProcessOutcome.launchFailure msg) =
      { success := false, output := "", error := some msg, return_code := -1,
        command := String.intercalate " " (exe :: args) } := rfl

/-- C4 (code bug evidence): a process that ran to completion with exit
code 0 but emitted the non-UTF8 byte `0xFF` on stdout does NOT yield a
result carrying its actual exit code: the strict `decode("utf-8")` call
raises, the surrounding `except` catches it, and the result carries the
launch-failure sentinel `return_code = -1` with `success = false` and
the stdout discarded — conflating "ran with exit code 0" with "never
ran", contrary to the specified sentinel semantics. -/
theorem decode_error_masks_exit_code :
    (_execute_command "tf" ["status", "."] (ProcessOutcome.launched 0 [255] [])).return_code = -1
    ∧ (_execute_command "tf" ["status", "."] (ProcessOutcome.launched 0 [255] [])).success = false
    ∧ (_execute_command "tf" ["status", "."] (ProcessOutcome.launched 0 [255] [])).output = "" := by
  decide

/-- C5 counterexample: with a version present, the branch argument
vector places `/version:C42` AFTER the two positional paths, not between
the base token and the paths as the claim states. -/
theorem create_branch_version_after_paths_counterexample :
    create_branch_command ⟨"$/Main", "$/Branch", some "C42"⟩ =
      ["branch", "$/Main", "$/Branch", "/version:C42"]
    ∧ create_branch_command ⟨"$/Main", "$/Branch", some "C42"⟩ ≠
      ["branch", "/version:C42", "$/Main", "$/Branch"] := by
  decide

/-- C5 (amended): the branch argument vector is the base token `branch`
first, then the positional arguments source_path and target_path in that
order, with the flag `/version:<v>` appended last when a (truthy,
non-empty) version is present. -/
theorem create_branch_command_shape (branch_info : TFSBranchInfo) :
    create_branch_command branch_info =
      ["branch", branch_info.source_path, branch_info.target_path]
        ++ (match branch_info.version with
            | some v => if v ≠ "" then ["/version:" ++ v] else []
            | none => []) := by
  rcases branch_info with ⟨s, t, v⟩
  cases v with
  | none => rfl
  | some v => by_cases h : v = "" <;> simp [create_branch_command, h]

/-- C6: for every checkin options value, the argument vector is
`checkin`, then `/comment:<text>` always, then `/recursive` if
recursive, then one `/associate:<id>` per associate id in input order,
then one `/resolve:<id>` per resolve id in input order, then
`/override:<reason>` when a (truthy, non-empty) override is present,
then the paths; in particular the spec's Example 2 holds. -/
theorem checkin_command_shape_and_example :
    (∀ options : TFSCheckinOptions,
      checkin_files_command options =
        ["checkin", "/comment:" ++ options.comment]
        ++ (if options.recursive then ["/recursive"] else [])
        ++ (optList options.associate).map (fun w => "/associate:" ++ toString w)
        ++ (optList options.resolve).map (fun w => "/resolve:" ++ toString w)
        ++ (match options.override with
            | some ov => if ov ≠ "" then ["/override:" ++ ov] else []
            | none => [])
        ++ options.paths)
    ∧ checkin_files_command ⟨["f.txt"], "fix bug", false, some [123], some [], none⟩ =
        ["checkin", "/comment:fix bug", "/associate:123", "f.txt"] := by
  constructor
  · intro o
    rcases o with ⟨paths, comment, rec, assoc, res, ov⟩
    cases assoc <;> cases res <;> cases ov <;> cases rec <;>
      simp [checkin_files_command, optList, guard_map_eq, List.append_assoc]
    all_goals ((repeat' split) <;> simp_all [List.append_assoc])
  · decide

/-- C7: for status and get-latest, when paths is absent the argument
vector ends with a single positional `.` placed after any flags; in
particular `status(paths=None, recursive=False)` yields
`["status", "."]`. -/
theorem status_get_latest_default_dot :
    (∀ recursive : Bool,
      get_status_command none recursive =
        ["status"] ++ (if recursive then ["/recursive"] else []) ++ ["."])
    ∧ (∀ recursive force : Bool,
      get_latest_command none recursive force =
        ["get"] ++ (if recursive then ["/recursive"] else [])
          ++ (if force then ["/force"] else []) ++ ["."])
    ∧ get_status_command none false = ["status", "."] := by
  refine ⟨fun r => ?_, fun r f => ?_, rfl⟩
  · cases r <;> rfl
  · cases r <;> cases f <;> rfl

/-- C8 counterexample: the path-keyed status resource returns an object
whose keys are exactly `path`, `success`, `output`, `error` — the
`command` field of the four-field operation-response shape is absent. -/
theorem path_status_missing_command_counterexample :
    ((get_path_status "tf" "a.txt" (ProcessOutcome.launched 0 [] [])).map Prod.fst =
      ["path", "success", "output", "error"])
    ∧ "command" ∉ (get_path_status "tf" "a.txt" (ProcessOutcome.launched 0 [] [])).map Prod.fst := by
  decide

/-- C8 (amended): for every path, the path-keyed status resource returns
a record with the echoed path plus three of the four operation-response
fields — `success`, `output` and `error` taken from the underlying
status command result — while `command` is omitted. -/
theorem path_status_shape (exe path : String) (o : ProcessOutcome) :
    (get_path_status exe path o).map Prod.fst = ["path", "success", "output", "error"]
    ∧ (get_path_status exe path o).lookup "path" = some (JsonVal.str path)
    ∧ (get_path_status exe path o).lookup "success" =
        some (JsonVal.bool (_execute_command exe (get_status_command (some [path]) false) o).success)
    ∧ (get_path_status exe path o).lookup "output" =
        some (JsonVal.str (_execute_command exe (get_status_command (some [path]) false) o).output)
    ∧ (get_path_status exe path o).lookup "error" =
        some (jsonOfOptStr (_execute_command exe (get_status_command (some [path]) false) o).error) :=
  ⟨rfl, rfl, rfl, rfl, rfl⟩

/-- C9: whenever the underlying `workfold /collection` command reports
failure, the workspace-info lookup raises (returns `Except.error` with
the propagated message) and never returns a `TFSWorkspaceInfo` record
with placeholder-defaulted fields. -/
theorem workspace_info_propagates_failure (exe : String) (o : ProcessOutcome)
    (computername : Option String)
    (h : (_execute_command exe ["workfold", "/collection"] o).success = false) :
    get_workspace_info exe o computername =
      Except.error ("Failed to get workspace info: "
        ++ pyStr (_execute_command exe ["workfold", "/collection"] o).error) := by
  simp [get_workspace_info, h]

/-- C9 witness: the theorem applied to a concrete spawn failure. -/
theorem workspace_info_propagates_failure_witness :
    (_execute_command "tf" ["workfold", "/collection"]
        (ProcessOutcome.launchFailure "spawn failed")).success = false
    ∧ get_workspace_info "tf" (ProcessOutcome.launchFailure "spawn failed") none =
        Except.error "Failed to get workspace info: spawn failed" :=
  ⟨rfl, by
    rw [workspace_info_propagates_failure "tf" (ProcessOutcome.launchFailure "spawn failed")
      none rfl]
    rfl⟩

/-- C10: the history argument vector emits `/stopafter:<n>` exactly when
the stopafter option is present and non-zero (Python truthiness), and a
caller passing `stopafter = 0` gets the same argument vector as one
passing no stopafter at all. -/
theorem history_stopafter_zero_is_absent :
    (∀ options : TFSHistoryOptions,
      get_history_command options =
        ["history", options.path]
        ++ (if options.recursive then ["/recursive"] else [])
        ++ (match options.stopafter with
            | some n => if n ≠ 0 then ["/stopafter:" ++ toString n] else []
            | none => [])
        ++ (match options.version with
            | some v => if v ≠ "" then ["/version:" ++ v] else []
            | none => [])
        ++ (match options.user with
            | some u => if u ≠ "" then ["/user:" ++ u] else []
            | none => []))
    ∧ (∀ (p : String) (r : Bool) (v u : Option String),
      get_history_command ⟨p, r, some 0, v, u⟩ = get_history_command ⟨p, r, none, v, u⟩) := by
  constructor
  · intro o
    rcases o with ⟨p, rec, sa, ver, usr⟩
    cases sa <;> cases ver <;> cases usr <;> cases rec <;>
      simp [get_history_command] <;>
      (repeat' split) <;> simp
  · intro p r v u
    rfl
